import Mathlib

/-!
Verification of the Story Learning Game backend (src/main.py, src/schemas.py).

The document store is modelled as in-memory lists of documents. Progress
documents live in the `progress` collection; learning paths in the
`learningpath` collection. Python `set` values are modelled as duplicate-free
lists: `set(xs)` becomes `xs.dedup`, `set.remove` becomes `List.erase`,
`set.add` becomes appending the fresh element, and `list(s)` is the identity.
All claims about the toggle are stated up to set equality (`List.toFinset`),
since Python set iteration order is unspecified.
-/

namespace StoryGame

/-- Mirrors `Progress` in src/schemas.py: one document per (user, path). -/
structure Progress where
  user_id : String
  path_title : String
  completed_node_ids : List String
deriving DecidableEq

/-- The Mongo filter `{"user_id": u, "path_title": p}` as a predicate. -/
def progressMatches (d : Progress) (u p : String) : Bool :=
  d.user_id == u && d.path_title == p

/-- Models `coll.find_one({"user_id": u, "path_title": p})`: first matching document. -/
def findOne (store : List Progress) (u p : String) : Option Progress :=
  store.find? (fun d => progressMatches d u p)

/-- Models `coll.update_one({"_id": doc["_id"]}, {"$set": {...}})` where `doc` was the
first match: replace the completed list of the first matching document. -/
def updateFirst : List Progress → String → String → List String → List Progress
  | [], _, _, _ => []
  | d :: rest, u, p, newIds =>
    if progressMatches d u p then
      { d with completed_node_ids := newIds } :: rest
    else
      d :: updateFirst rest u p newIds

/-- The set computation in `toggle_progress` (src/main.py lines 128-134):
`completed = set(doc.get("completed_node_ids", []))`, then remove `nid` if
present else add it, then `list(completed)`. -/
def toggleSet (xs : List String) (nid : String) : List String :=
  let completed := xs.dedup
  if nid ∈ completed then completed.erase nid else completed ++ [nid]

/-- Response of POST /progress/toggle. -/
structure ToggleResult where
  status : String
  completed_node_ids : List String
deriving DecidableEq

/-- Models `toggle_progress` (src/main.py lines 116-135): if no document exists for
(u, p), create one seeded with `[nid]`; otherwise toggle `nid` in the stored
set and write it back in place. Returns the new store and the response. -/
def toggle_progress (store : List Progress) (u p nid : String) :
    List Progress × ToggleResult :=
  match findOne store u p with
  | none => (store ++ [⟨u, p, [nid]⟩], ⟨"ok", [nid]⟩)
  | some doc =>
    let newIds := toggleSet doc.completed_node_ids nid
    (updateFirst store u p newIds, ⟨"ok", newIds⟩)

/-- Models `get_progress` (src/main.py lines 138-145): return the stored list, or
`[]` when no document exists; absence is not an error. -/
def get_progress (store : List Progress) (u p : String) : List String :=
  match findOne store u p with
  | none => []
  | some doc => doc.completed_node_ids

/-- Run a sequence of toggle requests (user_id, path_title, node_id), starting
from a given store; collects the final store and every response list. -/
def runToggles : List (String × String × String) → List Progress →
    List Progress × List (List String)
  | [], s => (s, [])
  | (u, p, nid) :: rest, s =>
    let res := toggle_progress s u p nid
    let next := runToggles rest res.1
    (next.1, res.2.completed_node_ids :: next.2)

/-! ### Lemmas about the toggle set computation -/

theorem mem_toggleSet (xs : List String) (nid a : String) :
    a ∈ toggleSet xs nid ↔
      (if nid ∈ xs then a ∈ xs ∧ a ≠ nid else a ∈ xs ∨ a = nid) := by
  unfold toggleSet
  by_cases h : nid ∈ xs
  · have hd : nid ∈ xs.dedup := List.mem_dedup.mpr h
    simp only [hd, if_pos, h]
    rw [List.Nodup.mem_erase_iff (List.nodup_dedup xs)]
    simp [List.mem_dedup, and_comm]
  · have hd : nid ∉ xs.dedup := fun hc => h (List.mem_dedup.mp hc)
    simp [hd, h, List.mem_dedup]

theorem toggleSet_nodup (xs : List String) (nid : String) :
    (toggleSet xs nid).Nodup := by
  unfold toggleSet
  by_cases h : nid ∈ xs.dedup
  · simpa [h] using (List.nodup_dedup xs).erase nid
  · simp only [h, if_neg, if_false]
    simp [List.nodup_append, List.nodup_dedup, h]

theorem toggleSet_involutive (xs : List String) (nid : String) :
    (toggleSet (toggleSet xs nid) nid).toFinset = xs.toFinset := by
  ext a
  simp only [List.mem_toFinset, mem_toggleSet]
  by_cases h : nid ∈ xs
  · have h1 : nid ∉ toggleSet xs nid := by
      rw [mem_toggleSet]; simp [h]
    simp only [h1, if_neg, if_false, mem_toggleSet, h, if_pos]
    by_cases ha : a = nid <;> simp [ha, h]
  · have h1 : nid ∈ toggleSet xs nid := by
      rw [mem_toggleSet]; simp [h]
    simp only [h1, if_pos, mem_toggleSet, h, if_neg]
    by_cases ha : a = nid <;> simp [ha, h]

/-! ### Lemmas about the store operations -/

theorem findOne_updateFirst (u p : String) (ids : List String) :
    ∀ (s : List Progress) (doc : Progress), findOne s u p = some doc →
      findOne (updateFirst s u p ids) u p =
        some { doc with completed_node_ids := ids }
  | [], doc, h => by simp [findOne] at h
  | d :: rest, doc, h => by
    unfold findOne at h ⊢
    unfold updateFirst
    cases hd : progressMatches d u p with
    | true =>
      have hd2 : progressMatches { d with completed_node_ids := ids } u p = true := by
        simpa [progressMatches] using hd
      simp only [List.find?, hd] at h
      simp only [hd, if_true, List.find?, hd2]
      cases h; rfl
    | false =>
      simp only [List.find?, hd] at h
      simp only [hd, Bool.false_eq_true, if_false, List.find?]
      exact findOne_updateFirst u p ids rest doc h

theorem findOne_append_of_none (s : List Progress) (u p : String) (d : Progress)
    (h : findOne s u p = none) (hd : progressMatches d u p) :
    findOne (s ++ [d]) u p = some d := by
  unfold findOne at h ⊢
  rw [List.find?_append, h]
  simp [List.find?, hd]

theorem findOne_isMatch (s : List Progress) (u p : String) (doc : Progress)
    (h : findOne s u p = some doc) : progressMatches doc u p := by
  have := List.find?_some h
  exact this

theorem toggleSet_toFinset_of_mem (xs : List String) (nid : String)
    (h : nid ∈ xs) : (toggleSet xs nid).toFinset = xs.toFinset.erase nid := by
  ext a
  simp only [List.mem_toFinset, mem_toggleSet, Finset.mem_erase, if_pos h]
  tauto

theorem toggleSet_toFinset_of_not_mem (xs : List String) (nid : String)
    (h : nid ∉ xs) : (toggleSet xs nid).toFinset = insert nid xs.toFinset := by
  ext a
  simp only [List.mem_toFinset, mem_toggleSet, Finset.mem_insert, if_neg h]
  tauto

theorem mem_updateFirst (ids : List String) (u p : String) :
    ∀ (s : List Progress) (d : Progress), d ∈ updateFirst s u p ids →
      d ∈ s ∨ d.completed_node_ids = ids
  | [], d, h => by simp [updateFirst] at h
  | e :: rest, d, h => by
    unfold updateFirst at h
    by_cases he : progressMatches e u p
    · rw [if_pos he] at h
      rcases List.mem_cons.mp h with h1 | h1
      · right; rw [h1]
      · left; exact List.mem_cons_of_mem _ h1
    · rw [if_neg he] at h
      rcases List.mem_cons.mp h with h1 | h1
      · left; simp [h1]
      · rcases mem_updateFirst ids u p rest d h1 with h2 | h2
        · left; exact List.mem_cons_of_mem _ h2
        · right; exact h2

/-! ### Claim C1: the toggle is an involution on the stored set -/

/-- C1: toggleProgress is an involution on the stored progress state: for
every store, user_id, path_title and node_id, toggling twice returns the
completed_node_ids set to its value before the first call; in particular,
on an empty store the first call returns [node_id] and the second []. -/
theorem toggle_progress_involution (s : List Progress) (u p nid : String) :
    ((toggle_progress (toggle_progress s u p nid).1 u p nid).2.completed_node_ids).toFinset
        = (get_progress s u p).toFinset
    ∧ (toggle_progress ([] : List Progress) u p nid).2.completed_node_ids = [nid]
    ∧ (toggle_progress (toggle_progress ([] : List Progress) u p nid).1 u p
        nid).2.completed_node_ids = ([] : List String) := by
  refine ⟨?_, ?_, ?_⟩
  · cases hf : findOne s u p with
    | none =>
      have hmatch : progressMatches ⟨u, p, [nid]⟩ u p = true := by
        simp [progressMatches]
      have h1 : toggle_progress s u p nid = (s ++ [⟨u, p, [nid]⟩], ⟨"ok", [nid]⟩) := by
        simp [toggle_progress, hf]
      have h2 : findOne (s ++ [⟨u, p, [nid]⟩]) u p = some ⟨u, p, [nid]⟩ :=
        findOne_append_of_none s u p _ hf hmatch
      rw [h1]
      simp [toggle_progress, h2, get_progress, hf, toggleSet]
    | some doc =>
      have h2 : findOne (updateFirst s u p (toggleSet doc.completed_node_ids nid)) u p
          = some { doc with completed_node_ids := toggleSet doc.completed_node_ids nid } :=
        findOne_updateFirst u p _ s doc hf
      simp only [toggle_progress, hf, h2, get_progress]
      exact toggleSet_involutive doc.completed_node_ids nid
  · simp [toggle_progress, findOne]
  · simp [toggle_progress, findOne, List.find?, progressMatches, toggleSet]

/-! ### Claim C2: one toggle changes the stored set by exactly one element -/

/-- C2: for every existing Progress document, a single toggleProgress call
adds node_id (set grows by exactly one) when absent and removes it (set
shrinks by exactly one) when present. -/
theorem toggle_progress_changes_one (s : List Progress) (u p nid : String)
    (doc : Progress) (h : findOne s u p = some doc) :
    (nid ∈ doc.completed_node_ids →
      ((toggle_progress s u p nid).2.completed_node_ids).toFinset
          = doc.completed_node_ids.toFinset.erase nid
      ∧ ((toggle_progress s u p nid).2.completed_node_ids).toFinset.card + 1
          = doc.completed_node_ids.toFinset.card)
    ∧ (nid ∉ doc.completed_node_ids →
      ((toggle_progress s u p nid).2.completed_node_ids).toFinset
          = insert nid doc.completed_node_ids.toFinset
      ∧ ((toggle_progress s u p nid).2.completed_node_ids).toFinset.card
          = doc.completed_node_ids.toFinset.card + 1) := by
  have hr : (toggle_progress s u p nid).2.completed_node_ids
      = toggleSet doc.completed_node_ids nid := by
    simp [toggle_progress, h]
  constructor
  · intro hin
    rw [hr, toggleSet_toFinset_of_mem _ _ hin]
    refine ⟨rfl, ?_⟩
    exact Finset.card_erase_add_one (List.mem_toFinset.mpr hin)
  · intro hout
    rw [hr, toggleSet_toFinset_of_not_mem _ _ hout]
    refine ⟨rfl, ?_⟩
    exact Finset.card_insert_of_not_mem (fun hc => hout (List.mem_toFinset.mp hc))

/-- Witness for C2 at a concrete store where the node is already present. -/
theorem toggle_progress_changes_one_witness :
    ((toggle_progress [⟨"guest", "path", ["n1", "n2"]⟩] "guest" "path"
        "n1").2.completed_node_ids).toFinset
      = (["n1", "n2"] : List String).toFinset.erase "n1"
    ∧ ((toggle_progress [⟨"guest", "path", ["n1", "n2"]⟩] "guest" "path"
        "n1").2.completed_node_ids).toFinset.card + 1
      = (["n1", "n2"] : List String).toFinset.card :=
  (toggle_progress_changes_one [⟨"guest", "path", ["n1", "n2"]⟩] "guest" "path"
    "n1" ⟨"guest", "path", ["n1", "n2"]⟩ (by decide)).1 (by decide)

/-! ### Claim C3: no duplicates ever appear, for any toggle sequence -/

/-- Every completed list stored in the given progress collection is
duplicate-free. -/
def storeNodup (s : List Progress) : Prop :=
  ∀ d ∈ s, d.completed_node_ids.Nodup

theorem toggle_progress_preserves_nodup (s : List Progress) (u p nid : String)
    (hs : storeNodup s) :
    storeNodup (toggle_progress s u p nid).1 ∧
    ((toggle_progress s u p nid).2.completed_node_ids).Nodup := by
  cases hf : findOne s u p with
  | none =>
    simp only [toggle_progress, hf]
    refine ⟨?_, by simp⟩
    intro d hd
    rcases List.mem_append.mp hd with h1 | h1
    · exact hs d h1
    · simp only [List.mem_singleton] at h1
      subst h1
      simp
  | some doc =>
    simp only [toggle_progress, hf]
    refine ⟨?_, toggleSet_nodup _ _⟩
    intro d hd
    rcases mem_updateFirst _ u p s d hd with h1 | h1
    · exact hs d h1
    · rw [h1]; exact toggleSet_nodup _ _

theorem runToggles_nodup_aux :
    ∀ (reqs : List (String × String × String)) (s : List Progress),
      storeNodup s →
      storeNodup (runToggles reqs s).1 ∧ ∀ r ∈ (runToggles reqs s).2, r.Nodup
  | [], s, hs => by
    refine ⟨hs, ?_⟩
    intro r hr
    simp [runToggles] at hr
  | (u, p, nid) :: rest, s, hs => by
    have step := toggle_progress_preserves_nodup s u p nid hs
    have ihres := runToggles_nodup_aux rest (toggle_progress s u p nid).1 step.1
    refine ⟨ihres.1, ?_⟩
    intro r hr
    simp only [runToggles, List.mem_cons] at hr
    rcases hr with h1 | h1
    · rw [h1]; exact step.2
    · exact ihres.2 r h1

/-- C3: for every sequence of toggleProgress calls starting from an empty
store, every completed_node_ids list stored in the final store and every
completed_node_ids list returned along the way is duplicate-free. -/
theorem runToggles_no_duplicates (reqs : List (String × String × String)) :
    (∀ d ∈ (runToggles reqs []).1, d.completed_node_ids.Nodup) ∧
    (∀ r ∈ (runToggles reqs []).2, r.Nodup) := by
  have h := runToggles_nodup_aux reqs [] (by intro d hd; simp at hd)
  exact ⟨h.1, h.2⟩

/-- Witness for C3 at a concrete request sequence that toggles the same node
twice and a second node once. -/
theorem runToggles_no_duplicates_witness :
    (["n2"] : List String).Nodup :=
  (runToggles_no_duplicates
      [("guest", "path", "n1"), ("guest", "path", "n1"),
        ("guest", "path", "n2")]).2 ["n2"] (by decide)

/-! ### Content model and bootstrap (src/schemas.py, src/main.py lines 27-96) -/

/-- Mirrors `PathNode` in src/schemas.py; `order` carries the ge=0 constraint
as a Nat. -/
structure PathNode where
  id : String
  title : String
  summary : String
  content : String
  order : Nat
  difficulty : Option String
  type : Option String
deriving DecidableEq

/-- Mirrors `LearningPath` in src/schemas.py. -/
structure LearningPath where
  title : String
  description : String
  theme : String
  nodes : List PathNode
deriving DecidableEq

/-- The two collections the bootstrap endpoint touches. -/
structure Store where
  learningpath : List LearningPath
  progress : List Progress
deriving DecidableEq

/-- Response of POST /bootstrap. -/
structure BootstrapResult where
  status : String
  message : String
  count : Option Nat
deriving DecidableEq

/-- The `entries` table in `bootstrap_content` (src/main.py lines 46-75):
(title, summary, content, difficulty, type). -/
def entries : List (String × String × String × String × String) :=
  [("Arrival", "Meet your guide and learn the rules", "Welcome adventurer! This realm turns lessons into quests.", "easy", "lesson"),
   ("Fork in the Road", "Choose your learning style", "Pick examples, theory, or challenges to proceed.", "easy", "lesson"),
   ("First Spark", "Your first tiny win", "Light the campfire by following the hints.", "easy", "video"),
   ("Puzzle Gate", "Solve a small puzzle", "Crack the runes to open the ancient gate.", "medium", "quiz"),
   ("Syntax Springs", "Read the signs", "Explore gentle syntax streams with playful examples.", "easy", "lesson"),
   ("Looping Lagoon", "Go around with style", "Sail in circles to collect pearls while looping.", "medium", "video"),
   ("Branching Bridge", "Choose wisely", "Cross a bridge that splits based on your decisions.", "medium", "lesson"),
   ("Mapmaker\x27s Post", "Draw your path", "Sketch a small map using coordinates and curves.", "medium", "project"),
   ("Function Falls", "Reusable magic", "Bottle a waterfall: turn flowing steps into a spell.", "medium", "lesson"),
   ("Testy Tunnels", "Check your work", "Shine a lantern on bugs by writing small tests.", "medium", "quiz"),
   ("Object Oasis", "Bundle and carry", "Pack related ideas into neat containers.", "medium", "video"),
   ("Module Market", "Trade and share", "Browse a bazaar of reusable pieces.", "easy", "lesson"),
   ("Async Airships", "Do many things at once", "Launch parallel airships to deliver messages.", "hard", "video"),
   ("Error Escarpment", "Trip safely", "Practice falling and recovering with grace.", "medium", "lesson"),
   ("Data Dunes", "Shape the sand", "Filter, map, and reduce dunes into sculptures.", "medium", "quiz"),
   ("Promise Peaks", "Trust the climb", "Climb with ropes that resolve at the summit.", "medium", "lesson"),
   ("HTTP Harbor", "Talk to distant lands", "Send messages in bottles and read the replies.", "medium", "lesson"),
   ("JSON Jungle", "Tame the trees", "Navigate tangled data vines safely.", "easy", "quiz"),
   ("SVG Savanna", "Draw with math", "Paint graceful paths and shapes on a living canvas.", "medium", "project"),
   ("State Summit", "Remember and react", "Carry state up the mountain and share views.", "hard", "lesson"),
   ("Hook Highlands", "Reusable reactions", "Craft tiny hooks to catch behavior.", "medium", "video"),
   ("Design Desert", "Balance and contrast", "Find oases of whitespace and rhythm.", "medium", "lesson"),
   ("Accessibility Arcade", "Everyone plays", "Win tickets by making controls friendly.", "medium", "quiz"),
   ("Performance Plains", "Ride fast", "Tune your mount and pack only what you need.", "hard", "lesson"),
   ("Security Stronghold", "Guard the gate", "Keep secrets safe and verify travelers.", "hard", "lesson"),
   ("Deployment Dock", "Set sail", "Launch ships with careful checklists.", "medium", "video"),
   ("Observability Overlook", "Read the stars", "Trace, log, and watch the skies.", "medium", "lesson"),
   ("Final Forge", "Craft a relic", "Temper your knowledge into a finished artifact.", "hard", "project")]

/-- The `big_nodes` list built in the enumerate loop (src/main.py lines
77-86): node i+1 gets id "n(i+1)" and order i. -/
def big_nodes : List PathNode :=
  entries.enum.map fun it =>
    { id := "n" ++ toString (it.1 + 1)
      title := it.2.1
      summary := it.2.2.1
      content := it.2.2.2.1
      order := it.1
      difficulty := some it.2.2.2.2.1
      type := some it.2.2.2.2.2 }

/-- The seeded path (src/main.py lines 88-93). -/
def seedPath : LearningPath :=
  { title := "Hero\x27s Journey into Coding"
    description := "An interactive story where each stop teaches a concept."
    theme := "gaming"
    nodes := big_nodes }

/-- Models `bootstrap_content` (src/main.py lines 27-96): if a LearningPath already
exists and force is false, report "Already bootstrapped" with no mutation;
otherwise wipe both collections when force is true, then insert the fixed
seed document and report the node count. -/
def bootstrap_content (s : Store) (force : Bool) : Store × BootstrapResult :=
  let existing := s.learningpath.take 1
  if existing ≠ [] ∧ force = false then
    (s, ⟨"ok", "Already bootstrapped", none⟩)
  else
    let s1 : Store := if force then ⟨[], []⟩ else s
    (⟨s1.learningpath ++ [seedPath], s1.progress⟩,
      ⟨"ok", "Bootstrapped with " ++ toString big_nodes.length ++ " goals",
        some big_nodes.length⟩)

/-! ### Claim C4: bootstrap on an empty store seeds 28 ordered nodes -/

/-- C4: bootstrap(force=false) on an empty store creates exactly one
LearningPath holding exactly 28 nodes with ids n1..n28 and order fields
0..27, and reports count = 28. -/
theorem bootstrap_empty_seeds_28_nodes :
    (bootstrap_content ⟨[], []⟩ false).1.learningpath = [seedPath]
    ∧ seedPath.nodes.length = 28
    ∧ seedPath.nodes.map PathNode.id
        = (List.range 28).map (fun i => "n" ++ toString (i + 1))
    ∧ seedPath.nodes.map PathNode.order = List.range 28
    ∧ (bootstrap_content ⟨[], []⟩ false).2.count = some 28 := by
  refine ⟨by rfl, by rfl, by decide, by decide, by rfl⟩

/-! ### Claim C5: forced bootstrap wipes both collections -/

/-- C5: for every prior store state, bootstrap(force=true) deletes every
document in both collections before seeding: afterwards the progress
collection is empty and the content collection holds exactly the seed. -/
theorem bootstrap_force_wipes (s : Store) :
    (bootstrap_content s true).1 = ⟨[seedPath], []⟩ := by
  simp [bootstrap_content]

/-! ### Claim C6: bootstrap without force never duplicates the seed -/

/-- C6: if a LearningPath already exists and force is false, bootstrap
mutates nothing and answers "Already bootstrapped"; hence two consecutive
bootstrap(force=false) calls from an empty store leave exactly one
LearningPath document. -/
theorem bootstrap_without_force_noop :
    (∀ s : Store, s.learningpath ≠ [] →
      bootstrap_content s false = (s, ⟨"ok", "Already bootstrapped", none⟩))
    ∧ (bootstrap_content (bootstrap_content ⟨[], []⟩ false).1
        false).1.learningpath.length = 1 := by
  have hmain : ∀ s : Store, s.learningpath ≠ [] →
      bootstrap_content s false = (s, ⟨"ok", "Already bootstrapped", none⟩) := by
    intro s hs
    have htake : s.learningpath.take 1 ≠ [] := by
      cases h : s.learningpath with
      | nil => exact absurd h hs
      | cons a l => simp [h]
    simp [bootstrap_content, htake]
  refine ⟨hmain, ?_⟩
  have h1 : (bootstrap_content ⟨[], []⟩ false).1 = ⟨[seedPath], []⟩ := by rfl
  rw [h1, hmain ⟨[seedPath], []⟩ (by simp)]
  rfl

/-- Witness for C6 at the store holding exactly the seeded path. -/
theorem bootstrap_without_force_noop_witness :
    bootstrap_content ⟨[seedPath], []⟩ false
      = (⟨[seedPath], []⟩, ⟨"ok", "Already bootstrapped", none⟩) :=
  bootstrap_without_force_noop.1 ⟨[seedPath], []⟩ (by simp)

/-! ### Claim C7: absent progress reads back as the empty list, not an error -/

/-- C7: for every (user_id, path_title) pair with no stored Progress
document, get_progress returns the empty list; in the embedding get_progress
is a total function into List String, so absence never surfaces as an
error. -/
theorem get_progress_absent_empty (s : List Progress) (u p : String)
    (h : findOne s u p = none) : get_progress s u p = [] := by
  simp [get_progress, h]

/-- Witness for C7 on the empty store. -/
theorem get_progress_absent_empty_witness :
    get_progress [] "guest" "Hero\x27s Journey into Coding" = [] :=
  get_progress_absent_empty [] "guest" "Hero\x27s Journey into Coding" (by rfl)

/-! ### Claim C8: the first toggle lazily creates a singleton document -/

/-- C8: for every (user_id, path_title) with no existing Progress document,
toggle_progress appends a new document whose completed list is exactly
[node_id] and answers status "ok" with that singleton. -/
theorem toggle_progress_lazy_create (s : List Progress) (u p nid : String)
    (h : findOne s u p = none) :
    toggle_progress s u p nid = (s ++ [⟨u, p, [nid]⟩], ⟨"ok", [nid]⟩) := by
  simp [toggle_progress, h]

/-- Witness for C8 on the empty store, matching the example in the spec. -/
theorem toggle_progress_lazy_create_witness :
    toggle_progress [] "guest" "Hero\x27s Journey into Coding" "n1"
      = ([⟨"guest", "Hero\x27s Journey into Coding", ["n1"]⟩], ⟨"ok", ["n1"]⟩) :=
  toggle_progress_lazy_create [] "guest" "Hero\x27s Journey into Coding" "n1" (by rfl)

/-! ### Claim C9: list_paths strips `_id` and validates strictly -/

/-- A raw `learningpath` document as read from the store: the store-internal
`_id` plus the LearningPath fields, each `none` when absent from the
document. -/
structure RawPathDoc where
  _id : Option String
  title : Option String
  description : Option String
  theme : Option String
  nodes : Option (List PathNode)
deriving DecidableEq

/-- Pydantic validation `LearningPath(**d)`: `title` and `description` are
required, `theme` defaults to "adventure", `nodes` to []; a missing required
field raises a ValidationError. -/
def validateLearningPath (d : RawPathDoc) : Except String LearningPath :=
  match d.title, d.description with
  | some t, some desc =>
    Except.ok { title := t, description := desc,
                theme := d.theme.getD "adventure", nodes := d.nodes.getD [] }
  | _, _ => Except.error "ValidationError"

/-- Models `d.pop("_id", None)`: the document with its store identifier removed. -/
def stripId (d : RawPathDoc) : RawPathDoc := { d with _id := none }

/-- Models `list_paths` (src/main.py lines 99-107): for each stored document, pop
`_id` and validate as a LearningPath; the loop raises at the first malformed
document, so the whole call fails rather than dropping it. -/
def list_paths : List RawPathDoc → Except String (List LearningPath)
  | [] => Except.ok []
  | d :: rest =>
    match validateLearningPath (stripId d) with
    | Except.error e => Except.error e
    | Except.ok lp =>
      match list_paths rest with
      | Except.error e => Except.error e
      | Except.ok lps => Except.ok (lp :: lps)

theorem list_paths_ok_all_valid :
    ∀ (docs : List RawPathDoc) (ps : List LearningPath),
      list_paths docs = Except.ok ps →
      ∀ d ∈ docs, ∃ lp, validateLearningPath (stripId d) = Except.ok lp
  | [], _, _, d, hd => by simp at hd
  | d0 :: rest, ps, h, d, hd => by
    unfold list_paths at h
    cases hv : validateLearningPath (stripId d0) with
    | error e => rw [hv] at h; cases h
    | ok lp =>
      rw [hv] at h
      cases hr : list_paths rest with
      | error e => rw [hr] at h; cases h
      | ok lps =>
        rcases List.mem_cons.mp hd with h1 | h1
        · exact ⟨lp, h1 ▸ hv⟩
        · exact list_paths_ok_all_valid rest lps hr d h1

theorem list_paths_ok_forall2 :
    ∀ (docs : List RawPathDoc) (ps : List LearningPath),
      list_paths docs = Except.ok ps →
      List.Forall₂ (fun d lp => validateLearningPath (stripId d) = Except.ok lp)
        docs ps
  | [], ps, h => by
    unfold list_paths at h
    cases h
    exact List.Forall₂.nil
  | d0 :: rest, ps, h => by
    unfold list_paths at h
    cases hv : validateLearningPath (stripId d0) with
    | error e => rw [hv] at h; cases h
    | ok lp =>
      rw [hv] at h
      cases hr : list_paths rest with
      | error e => rw [hr] at h; cases h
      | ok lps =>
        rw [hr] at h
        cases h
        exact List.Forall₂.cons hv (list_paths_ok_forall2 rest lps hr)

theorem list_paths_map_stripId :
    ∀ docs : List RawPathDoc, list_paths (docs.map stripId) = list_paths docs
  | [] => rfl
  | d :: rest => by
    have hs : stripId (stripId d) = stripId d := rfl
    simp only [List.map_cons, list_paths, hs, list_paths_map_stripId rest]

/-- C9: list_paths is insensitive to the store-internal `_id` field, returns
exactly one validated LearningPath per stored document in order (no
filtering, pagination or sorting), and fails with an error as soon as any
stored document is malformed instead of dropping it. -/
theorem list_paths_strict (docs : List RawPathDoc) :
    (list_paths (docs.map stripId) = list_paths docs)
    ∧ (∀ ps, list_paths docs = Except.ok ps →
        List.Forall₂ (fun d lp => validateLearningPath (stripId d) = Except.ok lp)
          docs ps)
    ∧ (∀ ps, list_paths docs = Except.ok ps → ps.length = docs.length)
    ∧ ((∃ d ∈ docs, ∀ lp, validateLearningPath (stripId d) ≠ Except.ok lp) →
        ∃ e, list_paths docs = Except.error e) := by
  refine ⟨list_paths_map_stripId docs, list_paths_ok_forall2 docs, ?_, ?_⟩
  · intro ps h
    exact (list_paths_ok_forall2 docs ps h).length_eq.symm
  · rintro ⟨d, hd, hbad⟩
    cases h : list_paths docs with
    | error e => exact ⟨e, rfl⟩
    | ok ps =>
      rcases list_paths_ok_all_valid docs ps h d hd with ⟨lp, hlp⟩
      exact absurd hlp (hbad lp)

/-- Witness for C9: one valid stored document yields exactly one path. -/
theorem list_paths_strict_witness :
    ([⟨"T", "D", "adventure", []⟩] : List LearningPath).length
      = ([⟨some "abc", some "T", some "D", none, none⟩] : List RawPathDoc).length :=
  (list_paths_strict [⟨some "abc", some "T", some "D", none, none⟩]).2.2.1
    [⟨"T", "D", "adventure", []⟩] (by rfl)

/-! ### Claim C10: the diagnostic endpoint degrades gracefully -/

/-- Python string slicing `s[:n]` on characters. -/
def strTrunc (s : String) (n : Nat) : String := String.mk (s.data.take n)

/-- The environment `test_database` observes: whether `db` is not None, the
optional `db.name` attribute, the outcome of `db.list_collection_names()`
(an exception is the error case), and which env vars are set. -/
structure TestEnv where
  dbAvailable : Bool
  dbName : Option String
  collectionsResult : Except String (List String)
  envUrlSet : Bool
  envNameSet : Bool

/-- Response of GET /test. -/
structure HealthResponse where
  backend : String
  database : String
  database_url : Option String
  database_name : Option String
  connection_status : String
  collections : List String
deriving DecidableEq

/-- Models `test_database` (src/main.py lines 148-181): builds the default report,
upgrades the fields that can be checked, catches the collection-listing
exception locally as a message truncated to 50 characters, keeps at most 10
collection names, and finally overwrites the url/name fields from the
environment. The outer except only guards the same store accesses and is
unreachable once the inner one is modelled, so the function is total. -/
def test_database (env : TestEnv) : HealthResponse :=
  let r0 : HealthResponse :=
    { backend := "✅ Running", database := "❌ Not Available",
      database_url := none, database_name := none,
      connection_status := "Not Connected", collections := [] }
  let r1 :=
    if env.dbAvailable then
      let base :=
        { r0 with database := "✅ Available",
                  database_url := some "✅ Configured",
                  database_name := some (env.dbName.getD "✅ Connected"),
                  connection_status := "Connected" }
      match env.collectionsResult with
      | Except.ok cols =>
        { base with collections := cols.take 10,
                    database := "✅ Connected & Working" }
      | Except.error e =>
        { base with database := "⚠️  Connected but Error: " ++ strTrunc e 50 }
    else
      { r0 with database := "⚠️  Available but not initialized" }
  { r1 with
      database_url := some (if env.envUrlSet then "✅ Set" else "❌ Not Set"),
      database_name := some (if env.envNameSet then "✅ Set" else "❌ Not Set") }

/-- C10: checkHealth is total (never raises): for every store state it
answers with backend "✅ Running", lists at most 10 collection names, and
renders a collection-listing exception as a status string carrying at most
50 characters of the message. -/
theorem test_database_graceful (env : TestEnv) :
    (test_database env).collections.length ≤ 10
    ∧ (∀ e, env.dbAvailable = true → env.collectionsResult = Except.error e →
        (test_database env).database = "⚠️  Connected but Error: " ++ strTrunc e 50
        ∧ (strTrunc e 50).length ≤ 50)
    ∧ (test_database env).backend = "✅ Running" := by
  have hlen : ∀ e : String, (strTrunc e 50).length ≤ 50 := by
    intro e
    simp only [strTrunc, String.length]
    exact le_trans (le_of_eq (List.length_take _ _)) (min_le_left _ _)
  cases henv : env.dbAvailable with
  | true =>
    cases hc : env.collectionsResult with
    | ok cols =>
      refine ⟨?_, ?_, by simp [test_database, henv, hc]⟩
      · simp only [test_database, henv, hc, if_true]
        exact le_trans (le_of_eq (List.length_take _ _)) (min_le_left _ _)
      · intro e _ he
        cases he
    | error e0 =>
      refine ⟨by simp [test_database, henv, hc], ?_, by simp [test_database, henv, hc]⟩
      intro e _ he
      cases he
      exact ⟨by simp [test_database, henv, hc], hlen e0⟩
  | false =>
    refine ⟨by simp [test_database, henv], ?_, by simp [test_database, henv]⟩
    intro e habs
    cases habs

/-- Witness for C10 where listing the collections raises. -/
theorem test_database_graceful_witness :
    (test_database ⟨true, none, Except.error "boom", false, false⟩).database
        = "⚠️  Connected but Error: " ++ strTrunc "boom" 50
    ∧ (strTrunc "boom" 50).length ≤ 50 :=
  (test_database_graceful ⟨true, none, Except.error "boom", false, false⟩).2.1
    "boom" rfl rfl

end StoryGame
